import Mathlib

/-!
Shallow embedding of the ECLIA embeddings sidecar
(`src/apps/memory/sidecar/server.py`).

The pure Python string helpers are translated to functions on `String`
(working on the underlying character lists); the process-wide registry
globals `_model` and `_DIM` become an explicit `RegState` record threaded
through the handlers; the on-disk HuggingFace cache becomes an explicit
finite filesystem value `FS`; the external `sentence_transformers`
library is supplied as an oracle (a fallible loader returning a handle,
and a handle carrying its embedding dimension and an `encode` method),
matching the collaborator boundary described by the sidecar's design.
Vector components are abstracted to integers: no claim treated here
depends on their floating-point arithmetic.
-/

namespace ECLIA

/-- Models Python `str.strip()`: drop leading and trailing whitespace. -/
def pyStrip (s : String) : String :=
  ⟨((s.data.dropWhile Char.isWhitespace).reverse.dropWhile Char.isWhitespace).reverse⟩

/-- Models Python `str.replace(old, new)` for a one-character `old`,
the only form the server uses (`model_name.replace("/", "--")`). -/
def pyReplaceChar (s : String) (c : Char) (new : String) : String :=
  ⟨s.data.foldr (fun ch acc => if ch = c then new.data ++ acc else ch :: acc) []⟩

/-- Models Python `c in s` for a one-character `c` (`"/" in model_name`). -/
def pyContainsChar (s : String) (c : Char) : Bool :=
  s.data.contains c

/-- String `p` starts with string `q` (used for path-tree reasoning). -/
def strStartsWith (p q : String) : Bool :=
  q.data.isPrefixOf p.data

/-- The environment the cache locator reads: the `HF_HUB_CACHE` and
`HF_HOME` variables (absent = `none`) and the user's home directory
(`Path.home()`). -/
structure Env where
  hfHubCache : Option String
  hfHome : Option String
  home : String

/-- `_hf_cache_dir()`: resolve the HuggingFace Hub cache directory.
`if os.environ.get("HF_HUB_CACHE"):` is Python truthiness, so an absent
or empty variable falls through; otherwise `HF_HOME` (defaulting to
`~/.cache/huggingface`) is joined with `hub`. -/
def _hf_cache_dir (env : Env) : String :=
  if env.hfHubCache.getD "" ≠ "" then env.hfHubCache.getD ""
  else env.hfHome.getD (env.home ++ "/.cache/huggingface") ++ "/hub"

/-- `_model_cache_path(model_name)`:
`"models--" + model_name.replace("/", "--")` under the hub cache dir. -/
def _model_cache_path (env : Env) (model_name : String) : String :=
  _hf_cache_dir env ++ "/" ++ ("models--" ++ pyReplaceChar model_name '/' "--")

/-- One existing filesystem node: its absolute path and whether it is a
directory. -/
structure FSNode where
  path : String
  dir : Bool
deriving DecidableEq

/-- A snapshot of the on-disk cache: the finite set of existing nodes. -/
structure FS where
  nodes : List FSNode
deriving DecidableEq

/-- `Path.is_dir()`: a directory node exists at `p`. -/
def FS.isDir (fs : FS) (p : String) : Bool :=
  fs.nodes.any (fun n => n.path == p && n.dir)

/-- `any(p.iterdir())`: the directory at `p` has at least one entry.  In
a real filesystem a directory has an entry iff some existing node lies
strictly below it. -/
def FS.hasEntry (fs : FS) (p : String) : Bool :=
  fs.nodes.any (fun n => strStartsWith n.path (p ++ "/"))

/-- `shutil.rmtree(p)` when it succeeds: remove the node at `p` and every
node strictly below it. -/
def rmtreeFS (fs : FS) (p : String) : FS :=
  ⟨fs.nodes.filter (fun n => !(n.path == p || strStartsWith n.path (p ++ "/")))⟩

/-- `_is_model_cached(model_name)`: the inner `_check` tests that the
cache path's `snapshots` subdirectory exists and is non-empty; the bare
name is checked first, then — only when the name has no `/` segment —
the `sentence-transformers/` auto-prefixed name. -/
def _is_model_cached (env : Env) (fs : FS) (model_name : String) : Bool :=
  let check := fun (name : String) =>
    let snapshots := _model_cache_path env name ++ "/snapshots"
    fs.isDir snapshots && fs.hasEntry snapshots
  if check model_name then true
  else if pyContainsChar model_name '/' then false
  else check ("sentence-transformers/" ++ model_name)

/-- The matrix a handle's `encode` call returns (a 2-D numpy array):
its shape and its `tolist()` image. -/
structure EncodeResult where
  shape0 : Nat
  shape1 : Nat
  tolist : List (List Int)

/-- A loaded `SentenceTransformer` handle, per the collaborator
boundary: it carries its sentence-embedding dimension and an encode
function taking the texts and the `normalize_embeddings` flag. -/
structure Model where
  get_sentence_embedding_dimension : Nat
  encode : List String → Bool → EncodeResult

/-- The process-wide Model Registry: the globals `_model` and `_DIM`. -/
structure RegState where
  _model : Option Model
  _DIM : Nat

/-- `EmbedRequest`. -/
structure EmbedRequest where
  texts : List String
  normalize : Bool

/-- `EmbedResponse`. -/
structure EmbedResponse where
  ok : Bool
  model : String
  dim : Nat
  embeddings : List (List Int)

/-- Response of `GET /model/status`. -/
structure StatusResponse where
  ok : Bool
  model : String
  cached : Bool
deriving DecidableEq

/-- Response of the download/delete handlers.  The JSON dicts the
handlers build have varying key sets, so absent keys are `none`. -/
structure ActionResponse where
  ok : Bool
  model : Option String
  cached : Option Bool
  dim : Option Nat
  error : Option String
deriving DecidableEq

/-- `POST /embed`: degraded shape when no model is loaded, no-op success
on empty texts, otherwise `dim` and `embeddings` taken from the matrix
the active handle's `encode` returns. -/
def embed (MODEL_NAME : String) (st : RegState) (req : EmbedRequest) : EmbedResponse :=
  match st._model with
  | none => ⟨false, MODEL_NAME, 0, []⟩
  | some m =>
    if req.texts.isEmpty then ⟨true, MODEL_NAME, st._DIM, []⟩
    else
      let vecs := m.encode req.texts req.normalize
      ⟨true, MODEL_NAME, vecs.shape1, vecs.tolist⟩

/-- `GET /model/status`: strip the name, delegate to the cache
inspector, always `ok=True`.  (FastAPI's `min_length=1` route validation
is stated as a hypothesis where a claim needs it.) -/
def model_status (env : Env) (fs : FS) (name : String) : StatusResponse :=
  ⟨true, pyStrip name, _is_model_cached env fs (pyStrip name)⟩

/-- `POST /model/download`.  `loadModel` is the external
`SentenceTransformer(name)` constructor: it returns a handle or raises
with a message.  On success with the configured name the registry is
hot-swapped; otherwise the new handle is dropped after its dimension is
reported. -/
def model_download (MODEL_NAME : String) (loadModel : String → Except String Model)
    (st : RegState) (reqName : String) : ActionResponse × RegState :=
  let name := pyStrip reqName
  if name = "" then (⟨false, none, none, none, some "name is required"⟩, st)
  else
    match loadModel name with
    | Except.error e => (⟨false, some name, none, none, some e⟩, st)
    | Except.ok m =>
      let st' : RegState :=
        if name = MODEL_NAME then ⟨some m, m.get_sentence_embedding_dimension⟩ else st
      (⟨true, some name, some true, some m.get_sentence_embedding_dimension, none⟩, st')

/-- `POST /model/delete`.  `rmErr` models `shutil.rmtree` raising:
`some e` means removing that path raises with message `e`, `none` means
the removal succeeds and deletes the subtree.  The registry is unloaded
whenever the stripped name equals `MODEL_NAME` and no exception was
raised — including when the cache path did not exist and nothing was
removed. -/
def model_delete (env : Env) (MODEL_NAME : String) (rmErr : String → Option String)
    (fs : FS) (st : RegState) (reqName : String) : ActionResponse × RegState × FS :=
  let name := pyStrip reqName
  if name = "" then (⟨false, none, none, none, some "name is required"⟩, st, fs)
  else
    let cache_path := _model_cache_path env name
    if fs.isDir cache_path then
      match rmErr cache_path with
      | some e => (⟨false, some name, none, none, some e⟩, st, fs)
      | none =>
        let st' : RegState := if name = MODEL_NAME then ⟨none, 0⟩ else st
        (⟨true, some name, some false, none, none⟩, st', rmtreeFS fs cache_path)
    else
      let st' : RegState := if name = MODEL_NAME then ⟨none, 0⟩ else st
      (⟨true, some name, some false, none, none⟩, st', fs)

/-- A concrete handle used by witnesses and counterexamples: dimension 3,
`encode` returning one zero row per text. -/
def dummyModel : Model :=
  ⟨3, fun ts _ => ⟨ts.length, 3, ts.map (fun _ => [0, 0, 0])⟩⟩

/-- A concrete environment for witnesses and counterexamples:
`HF_HUB_CACHE=/c`. -/
def env0 : Env := ⟨some "/c", none, "/home/u"⟩

/-- A concrete cache with a populated snapshot under the auto-prefixed
fallback location only. -/
def fs0 : FS :=
  ⟨[⟨"/c/models--sentence-transformers--foo", true⟩,
    ⟨"/c/models--sentence-transformers--foo/snapshots", true⟩,
    ⟨"/c/models--sentence-transformers--foo/snapshots/abc", true⟩]⟩

/-- A concrete cache holding the bare cache path of `foo`. -/
def fs1 : FS := ⟨[⟨"/c/models--foo", true⟩, ⟨"/c/models--foo/snapshots", true⟩]⟩

/-- A concrete cache holding the cache path of the configured model `m`. -/
def fsM : FS := ⟨[⟨"/c/models--m", true⟩]⟩

/-- After a successful `shutil.rmtree p`, no directory exists at `p`. -/
theorem rmtreeFS_isDir_self (fs : FS) (p : String) : (rmtreeFS fs p).isDir p = false := by
  by_contra h
  rw [Bool.not_eq_false, FS.isDir, List.any_eq_true] at h
  obtain ⟨n, hn, hp⟩ := h
  rw [rmtreeFS] at hn
  simp only [List.mem_filter] at hn
  obtain ⟨-, hf⟩ := hn
  simp only [Bool.and_eq_true] at hp
  simp [hp.1] at hf

/-- C1 counterexample: with the configured model `m` loaded and no cache
directory anywhere, `model_delete "m"` returns success on a missing
cache path yet unloads the Registry — the claim's frame condition fails
for the prior state `Loaded`. -/
theorem C1_counterexample :
    (FS.mk []).isDir (_model_cache_path env0 (pyStrip "m")) = false ∧
    (model_delete env0 "m" (fun _ => none) ⟨[]⟩ ⟨some dummyModel, 3⟩ "m").1.ok = true ∧
    ((model_delete env0 "m" (fun _ => none) ⟨[]⟩ ⟨some dummyModel, 3⟩ "m").2.1)._model.isSome
      = false ∧
    (RegState.mk (some dummyModel) 3)._model.isSome = true :=
  ⟨rfl, rfl, rfl, rfl⟩

/-- C1 (amended): when the resolved cache path is not a directory and the
stripped identifier is non-empty, delete returns success and leaves the
filesystem unchanged; the Registry is unchanged when the identifier
differs from the configured model name, but is unloaded when it equals
the configured name. -/
theorem C1_delete_missing_cache (env : Env) (MODEL_NAME : String)
    (rmErr : String → Option String) (fs : FS) (st : RegState) (reqName : String)
    (hdir : fs.isDir (_model_cache_path env (pyStrip reqName)) = false)
    (hne : pyStrip reqName ≠ "") :
    (pyStrip reqName ≠ MODEL_NAME →
      model_delete env MODEL_NAME rmErr fs st reqName
        = (⟨true, some (pyStrip reqName), some false, none, none⟩, st, fs)) ∧
    (pyStrip reqName = MODEL_NAME →
      model_delete env MODEL_NAME rmErr fs st reqName
        = (⟨true, some (pyStrip reqName), some false, none, none⟩, ⟨none, 0⟩, fs)) := by
  constructor
  · intro h
    simp [model_delete, hne, hdir, h]
  · intro h
    rw [h] at hne hdir
    simp [model_delete, hne, hdir, h]

/-- C1 witness: deleting `foo` (not the configured `m`) with an empty
cache is a success that changes nothing. -/
theorem C1_delete_missing_cache_witness :
    model_delete env0 "m" (fun _ => none) ⟨[]⟩ ⟨some dummyModel, 3⟩ "foo"
      = (⟨true, some "foo", some false, none, none⟩, ⟨some dummyModel, 3⟩, ⟨[]⟩) := by
  have h := C1_delete_missing_cache env0 "m" (fun _ => none) ⟨[]⟩ ⟨some dummyModel, 3⟩ "foo"
    (by decide) (by decide)
  exact h.1 (by decide)

/-- C2 counterexample: with the Registry unloaded, `embed` on an empty
texts sequence returns `ok=false`, not `ok=true`. -/
theorem C2_counterexample :
    (embed "m" ⟨none, 0⟩ ⟨[], true⟩).ok ≠ true := by decide

/-- C2 (amended): `embed` on empty texts is a no-op success only when a
model is loaded; with the Registry unloaded the degraded `ok=false`
shape wins, because the unloaded check precedes the empty-texts check. -/
theorem C2_embed_empty_texts (MODEL_NAME : String) (m : Model) (d : Nat) (norm : Bool) :
    embed MODEL_NAME ⟨some m, d⟩ ⟨[], norm⟩ = ⟨true, MODEL_NAME, d, []⟩ ∧
    embed MODEL_NAME ⟨none, d⟩ ⟨[], norm⟩ = ⟨false, MODEL_NAME, 0, []⟩ :=
  ⟨rfl, rfl⟩

/-- C3: if the external load raises, `model_download` returns a failure
carrying the error text and the Registry is exactly its prior state. -/
theorem C3_download_error_frame (MODEL_NAME : String)
    (loadModel : String → Except String Model) (st : RegState) (reqName e : String)
    (hne : pyStrip reqName ≠ "")
    (herr : loadModel (pyStrip reqName) = Except.error e) :
    model_download MODEL_NAME loadModel st reqName
      = (⟨false, some (pyStrip reqName), none, none, some e⟩, st) := by
  simp [model_download, hne, herr]

/-- C3 witness: a loader that always raises `boom` leaves the loaded
state `⟨some dummyModel, 3⟩` untouched. -/
theorem C3_download_error_frame_witness :
    model_download "m" (fun _ => Except.error "boom") ⟨some dummyModel, 3⟩ "x"
      = (⟨false, some "x", none, none, some "boom"⟩, ⟨some dummyModel, 3⟩) :=
  C3_download_error_frame "m" (fun _ => Except.error "boom") ⟨some dummyModel, 3⟩ "x" "boom"
    (by decide) rfl

/-- C4 counterexample: `foo` is cached only at the auto-prefixed
`sentence-transformers/foo` location; `model_delete "foo"` succeeds (its
own cache path is absent) yet `_is_model_cached "foo"` is still true
afterwards, because delete never removes the fallback path. -/
theorem C4_counterexample :
    (model_delete env0 "m" (fun _ => none) fs0 ⟨none, 0⟩ "foo").1.ok = true ∧
    _is_model_cached env0
      ((model_delete env0 "m" (fun _ => none) fs0 ⟨none, 0⟩ "foo").2.2) "foo" = true := by
  exact ⟨rfl, by decide⟩

/-- C4 (amended): after a successful delete of a non-empty identifier,
the identifier's own cache path no longer exists as a directory (so the
Cache Inspector's first check fails and a repeated delete is again a
no-op success); the auto-prefixed fallback location, however, is not
removed, so `_is_model_cached` may still be true. -/
theorem C4_delete_clears_own_path (env : Env) (MODEL_NAME : String)
    (rmErr : String → Option String) (fs : FS) (st : RegState) (reqName : String)
    (hne : pyStrip reqName ≠ "")
    (hok : (model_delete env MODEL_NAME rmErr fs st reqName).1.ok = true) :
    ((model_delete env MODEL_NAME rmErr fs st reqName).2.2).isDir
      (_model_cache_path env (pyStrip reqName)) = false := by
  by_cases hdir : fs.isDir (_model_cache_path env (pyStrip reqName)) = true
  · cases hrm : rmErr (_model_cache_path env (pyStrip reqName)) with
    | some e =>
      exfalso
      revert hok
      simp [model_delete, hne, hdir, hrm]
    | none =>
      simp [model_delete, hne, hdir, hrm, rmtreeFS_isDir_self]
  · have hdir' : fs.isDir (_model_cache_path env (pyStrip reqName)) = false := by
      revert hdir
      simp
    simp [model_delete, hne, hdir']

/-- C4 witness: deleting `foo` when its bare cache path exists removes
that directory. -/
theorem C4_delete_clears_own_path_witness :
    ((model_delete env0 "m" (fun _ => none) fs1 ⟨none, 0⟩ "foo").2.2).isDir
      (_model_cache_path env0 (pyStrip "foo")) = false :=
  C4_delete_clears_own_path env0 "m" (fun _ => none) fs1 ⟨none, 0⟩ "foo"
    (by decide) (by decide)

/-- C5: `_is_model_cached` is true iff the identifier's own cache path
has a non-empty `snapshots` subdirectory, or the identifier has no `/`
segment and the `sentence-transformers/`-prefixed cache path has one. -/
theorem C5_is_cached_iff (env : Env) (fs : FS) (name : String) :
    _is_model_cached env fs name = true ↔
      ((fs.isDir (_model_cache_path env name ++ "/snapshots") = true ∧
        fs.hasEntry (_model_cache_path env name ++ "/snapshots") = true) ∨
       (pyContainsChar name '/' = false ∧
        (fs.isDir (_model_cache_path env ("sentence-transformers/" ++ name) ++ "/snapshots")
            = true ∧
         fs.hasEntry (_model_cache_path env ("sentence-transformers/" ++ name) ++ "/snapshots")
            = true))) := by
  simp only [_is_model_cached]
  split_ifs with h1 h2 <;> simp_all [Bool.and_eq_true]

/-- C6: when the configured (active) model is targeted and its cache
path exists, a raising removal yields a failure with the error text and
an unchanged loaded Registry; the Registry becomes Unloaded only when
the removal succeeds. -/
theorem C6_delete_active_guarded (env : Env) (MODEL_NAME : String)
    (rmErr : String → Option String) (fs : FS) (m : Model) (d : Nat) (reqName : String)
    (hname : pyStrip reqName = MODEL_NAME) (hne : MODEL_NAME ≠ "")
    (hdir : fs.isDir (_model_cache_path env MODEL_NAME) = true) :
    (∀ e, rmErr (_model_cache_path env MODEL_NAME) = some e →
      model_delete env MODEL_NAME rmErr fs ⟨some m, d⟩ reqName
        = (⟨false, some MODEL_NAME, none, none, some e⟩, ⟨some m, d⟩, fs)) ∧
    (rmErr (_model_cache_path env MODEL_NAME) = none →
      (model_delete env MODEL_NAME rmErr fs ⟨some m, d⟩ reqName).2.1 = ⟨none, 0⟩ ∧
      (model_delete env MODEL_NAME rmErr fs ⟨some m, d⟩ reqName).1.ok = true) := by
  constructor
  · intro e he
    simp [model_delete, hname, hne, hdir, he]
  · intro he
    simp [model_delete, hname, hne, hdir, he]

/-- C6 witness: a successful removal of the active model `m` unloads the
Registry with a success result. -/
theorem C6_delete_active_guarded_witness :
    (model_delete env0 "m" (fun _ => none) fsM ⟨some dummyModel, 3⟩ "m").2.1
      = (⟨none, 0⟩ : RegState) ∧
    (model_delete env0 "m" (fun _ => none) fsM ⟨some dummyModel, 3⟩ "m").1.ok = true :=
  (C6_delete_active_guarded env0 "m" (fun _ => none) fsM dummyModel 3 "m"
    (by decide) (by decide) (by decide)).2 rfl

/-- C7: downloading a name other than the configured model never changes
the Registry, and on a successful load the response reports the new
handle's dimension while the handle itself is discarded. -/
theorem C7_download_other_frame (MODEL_NAME : String)
    (loadModel : String → Except String Model) (st : RegState) (reqName : String)
    (hne : pyStrip reqName ≠ MODEL_NAME) :
    (model_download MODEL_NAME loadModel st reqName).2 = st ∧
    (∀ m, pyStrip reqName ≠ "" → loadModel (pyStrip reqName) = Except.ok m →
      (model_download MODEL_NAME loadModel st reqName).1
        = ⟨true, some (pyStrip reqName), some true,
            some m.get_sentence_embedding_dimension, none⟩) := by
  constructor
  · by_cases h0 : pyStrip reqName = ""
    · simp [model_download, h0]
    · cases hl : loadModel (pyStrip reqName) with
      | error e => simp [model_download, h0, hl]
      | ok m => simp [model_download, h0, hl, hne]
  · intro m h0 hl
    simp [model_download, h0, hl]

/-- C7 witness: a successful download of `other` while the Registry is
unloaded reports dimension 3 and leaves the Registry unloaded. -/
theorem C7_download_other_frame_witness :
    (model_download "m" (fun _ => Except.ok dummyModel) ⟨none, 0⟩ "other").2
      = (⟨none, 0⟩ : RegState) ∧
    (model_download "m" (fun _ => Except.ok dummyModel) ⟨none, 0⟩ "other").1
      = ⟨true, some "other", some true, some 3, none⟩ := by
  have h := C7_download_other_frame "m" (fun _ => Except.ok dummyModel) ⟨none, 0⟩ "other"
    (by decide)
  exact ⟨h.1, h.2 dummyModel (by decide) rfl⟩

/-- C8: the Cache Locator resolves the cache root from `HF_HUB_CACHE`
when non-empty, else from `HF_HOME` joined with `hub`, else from the
default user-cache location joined with `hub`, and names the model
folder `models--` plus the identifier with `/` replaced by `--`. -/
theorem C8_cache_locator (name hh home c : String) (hc : c ≠ "") :
    (_model_cache_path ⟨some c, some hh, home⟩ name
        = c ++ "/" ++ ("models--" ++ pyReplaceChar name '/' "--")) ∧
    (_model_cache_path ⟨none, some hh, home⟩ name
        = hh ++ "/hub" ++ "/" ++ ("models--" ++ pyReplaceChar name '/' "--")) ∧
    (_model_cache_path ⟨none, none, home⟩ name
        = home ++ "/.cache/huggingface" ++ "/hub" ++ "/"
            ++ ("models--" ++ pyReplaceChar name '/' "--")) := by
  refine ⟨?_, ?_, ?_⟩ <;> simp [_model_cache_path, _hf_cache_dir, hc]

/-- C8 witness: with `HF_HUB_CACHE=/c` the identifier `a/b` resolves to
the cache root `/c` and the folder `models--a--b`. -/
theorem C8_cache_locator_witness :
    _model_cache_path ⟨some "/c", some "/hh", "/home/u"⟩ "a/b"
      = "/c" ++ "/" ++ ("models--" ++ pyReplaceChar "a/b" '/' "--") :=
  (C8_cache_locator "a/b" "/hh" "/home/u" "/c" (by decide)).1

/-- C9: with a model loaded and non-empty texts, the response's `dim`
and `embeddings` are taken from the matrix the handle's `encode` call
returns — the stored `_DIM` value `d` does not appear in the result. -/
theorem C9_embed_dim_from_encode (MODEL_NAME : String) (m : Model) (d : Nat)
    (req : EmbedRequest) (hne : req.texts ≠ []) :
    embed MODEL_NAME ⟨some m, d⟩ req
      = ⟨true, MODEL_NAME, (m.encode req.texts req.normalize).shape1,
          (m.encode req.texts req.normalize).tolist⟩ := by
  have hie : req.texts.isEmpty = false := by
    cases h : req.texts with
    | nil => exact absurd h hne
    | cons a l => rfl
  simp [embed, hie]

/-- C9 witness: with a stale stored dimension 99, embedding one text
still reports the encode matrix's width 3. -/
theorem C9_embed_dim_from_encode_witness :
    embed "m" ⟨some dummyModel, 99⟩ ⟨["hi"], true⟩ = ⟨true, "m", 3, [[0, 0, 0]]⟩ := by
  have h := C9_embed_dim_from_encode "m" dummyModel 99 ⟨["hi"], true⟩ (by simp)
  exact h

/-- C10: the status handler always returns `ok=true` with the stripped
name and the Cache Inspector's boolean, for every name the route accepts
(length ≥ 1) — even one stripping to the empty string, which the
download and delete handlers instead reject. -/
theorem C10_status_total (env : Env) (fs : FS) (st : RegState) (MODEL_NAME : String)
    (loadModel : String → Except String Model) (rmErr : String → Option String)
    (name : String) (hlen : 1 ≤ name.length) :
    model_status env fs name
      = ⟨true, pyStrip name, _is_model_cached env fs (pyStrip name)⟩ ∧
    (pyStrip name = "" →
      (model_download MODEL_NAME loadModel st name).1.ok = false ∧
      (model_delete env MODEL_NAME rmErr fs st name).1.ok = false) := by
  refine ⟨rfl, fun h => ⟨?_, ?_⟩⟩ <;> simp [model_download, model_delete, h]

/-- C10 witness: the whitespace-only name, accepted by the route, gets a
successful status response while download and delete reject it. -/
theorem C10_status_total_witness :
    model_status env0 ⟨[]⟩ " " = ⟨true, "", false⟩ ∧
    (model_download "m" (fun _ => Except.ok dummyModel) ⟨none, 0⟩ " ").1.ok = false ∧
    (model_delete env0 "m" (fun _ => none) ⟨[]⟩ ⟨none, 0⟩ " ").1.ok = false := by
  have h := C10_status_total env0 ⟨[]⟩ ⟨none, 0⟩ "m" (fun _ => Except.ok dummyModel)
    (fun _ => none) " " (by decide)
  exact ⟨h.1, (h.2 (by decide)).1, (h.2 (by decide)).2⟩

end ECLIA
